import Mathlib

/-!
Verification of the conversation / message subsystem of the marketplace
backend (files `core/models/chat.py`, `core/serializers/chat_serializers.py`,
`core/views/chat_views.py`).

The Django ORM state is embedded shallowly: one `DB` record holds the rows of
the `conversations`, `messages` and `conversation_participants` tables as
Lean lists; every operation is a pure function from a `DB` (plus the clock
values read by `timezone.now()` during the call, passed explicitly) to a
result together with the successor `DB`.  Binary columns that no operation
here inspects (image and file attachments, `updated_at`) are omitted.
-/

namespace Chat

/-- A row of the `conversations` table (`core/models/chat.py`, class
`Conversation`).  `participants` embeds the many-to-many join as the list of
user ids attached to the conversation (set semantics: `add` deduplicates). -/
structure Conversation where
  id : Nat
  participants : List Nat
  related_product : Option Nat
  title : Option String
  is_active : Bool
  created_at : Nat
  last_message_at : Option Nat
deriving DecidableEq, Repr

/-- Structured metadata stored in the JSON `metadata` column: a price offer
carries `\x7b'offer_amount': ...\x7d`, a meetup request carries
`\x7b'location': ..., 'suggested_time': ...\x7d` (decimal amounts are
modelled as integers, datetimes as naturals). -/
inductive MsgMetadata where
  | offer (amount : Int)
  | meetup (location : String) (suggestedTime : Nat)
deriving DecidableEq, Repr

/-- A row of the `messages` table (`core/models/chat.py`, class `Message`). -/
structure Message where
  id : Nat
  conversation : Nat
  sender : Nat
  message_type : String
  content : String
  metadata : Option MsgMetadata
  is_read : Bool
  is_edited : Bool
  is_deleted : Bool
  created_at : Nat
  read_at : Option Nat
deriving DecidableEq, Repr

/-- A row of the `conversation_participants` table
(`ConversationParticipant`): identified by the pair
(conversation id, user id), which carries a `unique_together` constraint;
the boolean settings columns play no role in the claims below. -/
structure ParticipantRow where
  conversation : Nat
  user : Nat
deriving DecidableEq, Repr

/-- The database state touched by the chat subsystem. `nextConvId` and
`nextMsgId` model the primary-key sequences. -/
structure DB where
  conversations : List Conversation
  messages : List Message
  participant_settings : List ParticipantRow
  nextConvId : Nat
  nextMsgId : Nat
deriving DecidableEq, Repr

def emptyDB : DB :=
  { conversations := [], messages := [], participant_settings := [],
    nextConvId := 0, nextMsgId := 0 }

/-- Typed failures surfaced by the request handlers.  `invalidParticipants`
is listed because the specification names such an error; no code path below
produces it. -/
inductive ChatError where
  | validationError (detail : String)
  | forbidden (detail : String)
  | notFound
  | integrityError (detail : String)
  | attributeError (name : String)
  | invalidParticipants
deriving DecidableEq, Repr

/-! ## Conversation store (`get_or_create_conversation`, chat.py 289-317) -/

/-- `conversation.participants.add(u)`: many-to-many insert, a duplicate id
collapses. -/
def addParticipant (l : List Nat) (u : Nat) : List Nat :=
  if l.contains u then l else l ++ [u]

/-- The existence lookup of `get_or_create_conversation`:
`Conversation.objects.filter(participants=user1, related_product=product)
.filter(participants=user2)` — i.e. conversations whose participant set
*contains* `user1` and `user2` and whose product matches — followed by
`.first()`. -/
def find_existing (db : DB) (user1 user2 : Nat) (product : Option Nat) :
    Option Conversation :=
  (db.conversations.filter (fun c =>
    c.participants.contains user1 && c.related_product == product &&
      c.participants.contains user2)).head?

/-- `ConversationParticipant.objects.create(conversation=…, user=…)`:
fails with an `IntegrityError` when a row for the same
(conversation, user) pair exists (`unique_together`). -/
def createSettingsRow (db : DB) (convId userId : Nat) :
    Except ChatError DB :=
  if db.participant_settings.contains ⟨convId, userId⟩ then
    .error (.integrityError "conversation_participants")
  else
    .ok { db with
          participant_settings := db.participant_settings ++ [⟨convId, userId⟩] }

/-- The creation half of `get_or_create_conversation` (chat.py 303-315):
insert the conversation row, attach both participants, then create the two
settings rows one after the other; there is no enclosing transaction, so on
an `IntegrityError` the rows already written stay committed. -/
def createConversationUnit (db : DB) (user1 user2 : Nat) (product : Option Nat)
    (tNow : Nat) : Except ChatError Conversation × DB :=
  let conv : Conversation :=
    { id := db.nextConvId
      participants := addParticipant (addParticipant [] user1) user2
      related_product := product
      title := none
      is_active := true
      created_at := tNow
      last_message_at := none }
  let db1 : DB := { db with
    conversations := db.conversations ++ [conv]
    nextConvId := db.nextConvId + 1 }
  match createSettingsRow db1 conv.id user1 with
  | .error e => (.error e, db1)
  | .ok db2 =>
    match createSettingsRow db2 conv.id user2 with
    | .error e => (.error e, db2)
    | .ok db3 => (.ok conv, db3)

/-- `get_or_create_conversation(user1, user2, product)` (chat.py 289-317):
return the first existing conversation containing both users with the same
product, else create one.  The source performs no `user1 == user2` check and
wraps nothing in a transaction. -/
def get_or_create_conversation (db : DB) (user1 user2 : Nat)
    (product : Option Nat) (tNow : Nat) :
    Except ChatError (Conversation × Bool) × DB :=
  match find_existing db user1 user2 product with
  | some c => (.ok (c, false), db)
  | none =>
    match createConversationUnit db user1 user2 product tNow with
    | (.error e, db') => (.error e, db')
    | (.ok conv, db') => (.ok (conv, true), db')

/-! ### Two concurrent calls as an interleaving

Each call runs two database steps: the existence check
(`filter … exists()/first()`) and the creation unit.  The source places no
transaction around the pair (the serializer path wraps only the creation in
`transaction.atomic()`), so steps of two concurrent calls may interleave.
A schedule is a list of booleans: `true` runs the next step of call 1,
`false` of call 2. -/

structure ThreadCtl where
  phase : Nat
  found : Bool
deriving DecidableEq, Repr

def stepThread (user1 user2 : Nat) (product : Option Nat) (tNow : Nat)
    (db : DB) (t : ThreadCtl) : DB × ThreadCtl :=
  if t.phase = 0 then
    (db, { phase := 1, found := (find_existing db user1 user2 product).isSome })
  else if t.phase = 1 then
    if t.found then (db, { t with phase := 2 })
    else ((createConversationUnit db user1 user2 product tNow).2,
          { t with phase := 2 })
  else (db, t)

def runSchedule (user1 user2 : Nat) (product : Option Nat) (tNow : Nat) :
    List Bool → DB → ThreadCtl → ThreadCtl → DB
  | [], db, _, _ => db
  | first :: rest, db, t1, t2 =>
    if first then
      let s := stepThread user1 user2 product tNow db t1
      runSchedule user1 user2 product tNow rest s.1 s.2 t2
    else
      let s := stepThread user1 user2 product tNow db t2
      runSchedule user1 user2 product tNow rest s.1 t1 s.2

/-- Number of committed conversations matching the dedup key, i.e. the rows
the existence lookup of `get_or_create_conversation` matches. -/
def countMatching (db : DB) (user1 user2 : Nat) (product : Option Nat) : Nat :=
  (db.conversations.filter (fun c =>
    c.participants.contains user1 && c.related_product == product &&
      c.participants.contains user2)).length

/-! ## Message log -/

/-- Python's `str.strip()` (used by `validate_content`): drop whitespace from
both ends of the character sequence. -/
def pyStrip (s : String) : String :=
  ⟨((s.data.dropWhile Char.isWhitespace).reverse.dropWhile
      Char.isWhitespace).reverse⟩

/-- `ConversationViewSet.get_object()`: the queryset is
`Conversation.objects.filter(participants=request.user)`, so looking up a
conversation the requester is not a participant of yields a 404. -/
def getConvForUser (db : DB) (convId userId : Nat) : Option Conversation :=
  (db.conversations.filter (fun c => c.participants.contains userId)).find?
    (fun c => c.id == convId)

/-- `Conversation.update_last_message_time` (chat.py 85-88): stamps
`last_message_at` with `timezone.now()` read at the moment of the call and
saves that single field. -/
def setLastMessageAt (db : DB) (convId tUpdate : Nat) : DB :=
  { db with conversations := db.conversations.map (fun c =>
      if c.id == convId then { c with last_message_at := some tUpdate } else c) }

/-- `Message.save` (chat.py 184-187): insert the row (`created_at` stamped by
`auto_now_add` with the clock value `tCreate` read at insert time), then call
`conversation.update_last_message_time()`, which reads the clock again
(`tUpdate`).  The two writes are separate saves with no enclosing
transaction. -/
def messageSave (db : DB) (m : Message) (tUpdate : Nat) : DB :=
  let db1 : DB := { db with
    messages := db.messages ++ [m], nextMsgId := db.nextMsgId + 1 }
  setLastMessageAt db1 m.conversation tUpdate

/-- `ConversationViewSet.send_message` + `MessageCreateSerializer`
(chat_views.py 68-99, chat_serializers.py 160-201): resolve the conversation
through the participant-scoped queryset, re-check participation, validate the
content (non-empty after strip), check the membership and `is_active` flags,
then create the message. `tCreate` and `tUpdate` are the two `timezone.now()`
reads performed during `Message.save`. -/
def post_message (db : DB) (convId senderId : Nat) (mtype content : String)
    (tCreate tUpdate : Nat) : Except ChatError Message × DB :=
  match getConvForUser db convId senderId with
  | none => (.error .notFound, db)
  | some conv =>
    if conv.participants.contains senderId = false then
      (.error (.forbidden "You are not a participant in this conversation"), db)
    else if pyStrip content = "" then
      (.error (.validationError "Message content cannot be empty"), db)
    else if conv.is_active = false then
      (.error (.validationError "This conversation is no longer active"), db)
    else
      let m : Message :=
        { id := db.nextMsgId
          conversation := conv.id
          sender := senderId
          message_type := mtype
          content := pyStrip content
          metadata := none
          is_read := false
          is_edited := false
          is_deleted := false
          created_at := tCreate
          read_at := none }
      (.ok m, messageSave db m tUpdate)

/-- The price-offer message row built by
`ConversationViewSet.send_price_offer` (chat_views.py 122-129):
`message_type='price_offer'`, metadata `\x7boffer_amount\x7d`, and a default
content string embedding the amount when no note is given. -/
def offerMessage (db : DB) (conv : Conversation) (userId : Nat)
    (offer_amount : Int) (note : Option String) (tCreate : Nat) : Message :=
  { id := db.nextMsgId
    conversation := conv.id
    sender := userId
    message_type := "price_offer"
    content := note.getD
      ("I\x27d like to offer R" ++ toString offer_amount ++ " for this item.")
    metadata := some (.offer offer_amount)
    is_read := false
    is_edited := false
    is_deleted := false
    created_at := tCreate
    read_at := none }

/-- The meetup-request message row built by
`ConversationViewSet.send_meetup_request` (chat_views.py 158-168). -/
def meetupMessage (db : DB) (conv : Conversation) (userId : Nat)
    (location : String) (suggested_time : Nat) (note : Option String)
    (tCreate : Nat) : Message :=
  { id := db.nextMsgId
    conversation := conv.id
    sender := userId
    message_type := "meeting_request"
    content := note.getD ("Let\x27s meet at " ++ location)
    metadata := some (.meetup location suggested_time)
    is_read := false
    is_edited := false
    is_deleted := false
    created_at := tCreate
    read_at := none }

/-- `ConversationViewSet.send_price_offer` (chat_views.py 101-134): after the
participant check and `OfferMessageSerializer` validation (`offer_amount > 0`)
it calls `Message.objects.create` directly — the `MessageCreateSerializer`
checks (in particular the `is_active` check) are not run. -/
def send_price_offer (db : DB) (convId userId : Nat) (offer_amount : Int)
    (note : Option String) (tCreate tUpdate : Nat) :
    Except ChatError Message × DB :=
  match getConvForUser db convId userId with
  | none => (.error .notFound, db)
  | some conv =>
    if conv.participants.contains userId = false then
      (.error (.forbidden "You are not a participant in this conversation"), db)
    else if offer_amount ≤ 0 then
      (.error (.validationError "Offer amount must be greater than 0"), db)
    else
      let m := offerMessage db conv userId offer_amount note tCreate
      (.ok m, messageSave db m tUpdate)

/-- `ConversationViewSet.send_meetup_request` (chat_views.py 136-173): same
shape as the price offer — participant check, `MeetupRequestSerializer`
validation (`location` required and non-blank, `suggested_time` required),
then a direct `Message.objects.create` without the serializer checks. -/
def send_meetup_request (db : DB) (convId userId : Nat) (location : String)
    (suggested_time : Nat) (note : Option String) (tCreate tUpdate : Nat) :
    Except ChatError Message × DB :=
  match getConvForUser db convId userId with
  | none => (.error .notFound, db)
  | some conv =>
    if conv.participants.contains userId = false then
      (.error (.forbidden "You are not a participant in this conversation"), db)
    else if location = "" then
      (.error (.validationError "location is required"), db)
    else
      let m := meetupMessage db conv userId location suggested_time note tCreate
      (.ok m, messageSave db m tUpdate)

/-! ## Reads: message listing and unread counts -/

/-- `ConversationDetailSerializer.get_messages` (chat_serializers.py
140-150): `obj.messages.filter(is_deleted=False).order_by('-created_at')[:50]`
then `reversed(...)` — i.e. the newest fifty non-deleted messages of the
conversation, presented oldest first. -/
def get_messages (db : DB) (convId : Nat) : List Message :=
  let newestFirst := List.insertionSort
    (fun a b : Message => b.created_at ≤ a.created_at)
    (db.messages.filter (fun m => m.conversation == convId && !m.is_deleted))
  (newestFirst.take 50).reverse

/-- The row condition `filter(is_read=False).exclude(sender=user)` scoped to
one conversation's related manager — shared verbatim by
`Conversation.get_unread_count_for_user` (chat.py 79-83) and
`Conversation.mark_as_read_for_user` (chat.py 73-77). -/
def unreadPred (convId userId : Nat) (m : Message) : Bool :=
  m.conversation == convId && !m.is_read && m.sender != userId

/-- `Conversation.get_unread_count_for_user` (chat.py 79-83):
`self.messages.filter(is_read=False).exclude(sender=user).count()` — no
`is_deleted` condition appears. -/
def unreadCount (msgs : List Message) (convId userId : Nat) : Nat :=
  (msgs.filter (unreadPred convId userId)).length

def get_unread_count_for_user (db : DB) (convId userId : Nat) : Nat :=
  unreadCount db.messages convId userId

/-! ## Read marking -/

/-- `Message.mark_as_read` (chat.py 189-194): only when `is_read` is still
false, set it and stamp `read_at` with the current clock value. -/
def mark_as_read (m : Message) (tNow : Nat) : Message :=
  if m.is_read then m else { m with is_read := true, read_at := some tNow }

/-- `MessageViewSet.mark_read` (chat_views.py 278-294) acting on the fetched
message: `get_object()` runs over the queryset
`Message.objects.filter(conversation__participants=request.user,
is_deleted=False)`, so a deleted message or a foreign conversation yields a
404; then the view re-checks participation (403) and calls `mark_as_read`
only when the reader is not the sender. -/
def mark_read_view (conv : Conversation) (m : Message) (readerId tNow : Nat) :
    Except ChatError Message :=
  if m.is_deleted = true ∨ conv.participants.contains readerId = false then
    .error .notFound
  else if conv.participants.contains readerId = false then
    .error (.forbidden "You are not a participant in this conversation")
  else
    .ok (if m.sender ≠ readerId then mark_as_read m tNow else m)

/-- `Conversation.mark_as_read_for_user` (chat.py 73-77): a bulk update over
`self.messages.filter(is_read=False).exclude(sender=user)` setting
`is_read=True` and one shared `read_at` stamp. -/
def mark_as_read_for_user (msgs : List Message) (convId userId tNow : Nat) :
    List Message :=
  msgs.map (fun m =>
    if unreadPred convId userId m then
      { m with is_read := true, read_at := some tNow }
    else m)

/-- The payload assembled by `ConversationDetailSerializer` for the fields
the claims inspect: the message listing and the per-user unread count. -/
structure ConvDetail where
  id : Nat
  is_active : Bool
  last_message_at : Option Nat
  messages : List Message
  unread_count : Nat
deriving DecidableEq, Repr

def serializeDetail (db : DB) (conv : Conversation) (userId : Nat) :
    ConvDetail :=
  { id := conv.id
    is_active := conv.is_active
    last_message_at := conv.last_message_at
    messages := get_messages db conv.id
    unread_count := get_unread_count_for_user db conv.id userId }

/-- `ConversationViewSet.retrieve` (chat_views.py 58-66): fetch the
conversation through the participant-scoped queryset, call
`mark_as_read_for_user(request.user)`, then serialize the (now updated)
conversation with `ConversationDetailSerializer`. -/
def retrieve (db : DB) (convId userId tNow : Nat) :
    Except ChatError ConvDetail × DB :=
  match getConvForUser db convId userId with
  | none => (.error .notFound, db)
  | some conv =>
    let db' : DB :=
      { db with messages := mark_as_read_for_user db.messages conv.id userId tNow }
    (.ok (serializeDetail db' conv userId), db')

/-! ## Editing and deleting messages -/

/-- The method names bound in the body of class `Message`
(chat.py 91-194) besides the dunder `__str__`: dynamic attribute access on
any other name raises `AttributeError`. -/
def messageMethodNames : List String := ["save", "mark_as_read"]

def messageHasMethod (name : String) : Bool := messageMethodNames.contains name

/-- `MessageViewSet.update` (chat_views.py 245-263) acting on the fetched
message: 404 through the queryset, 403 unless the requester is the sender,
then only the `content` field is applied and `serializer.save(is_edited=True)`
stamps the edit flag. -/
def update_message (conv : Conversation) (m : Message) (requesterId : Nat)
    (newContent : String) : Except ChatError Message :=
  if m.is_deleted = true ∨ conv.participants.contains requesterId = false then
    .error .notFound
  else if m.sender ≠ requesterId then
    .error (.forbidden "You can only edit your own messages")
  else
    .ok { m with content := newContent, is_edited := true }

/-- `MessageViewSet.destroy` (chat_views.py 265-276) acting on the fetched
message: 404 through the queryset, 403 unless the requester is the sender,
then it invokes `message.soft_delete()` — a method class `Message` does not
define, so the dynamic lookup raises `AttributeError`.  The `then` branch
records what the call would do if the method existed (set the soft-delete
flag, keep the row). -/
def destroy (conv : Conversation) (m : Message) (requesterId : Nat) :
    Except ChatError Message :=
  if m.is_deleted = true ∨ conv.participants.contains requesterId = false then
    .error .notFound
  else if m.sender ≠ requesterId then
    .error (.forbidden "You can only delete your own messages")
  else if messageHasMethod "soft_delete" then
    .ok { m with is_deleted := true }
  else
    .error (.attributeError "soft_delete")

/-- The conversation row committed by `get_or_create_conversation` on the
empty store (fresh id 0, creation clock `t`). -/
def seqConv (a b : Nat) (p : Option Nat) (t : Nat) : Conversation :=
  { id := 0, participants := [a, b], related_product := p, title := none,
    is_active := true, created_at := t, last_message_at := none }

/-- The store after a first `get_or_create_conversation` call on the empty
store with distinct users: one conversation and its two settings rows. -/
def seqDB (a b : Nat) (p : Option Nat) (t : Nat) : DB :=
  { conversations := [seqConv a b p t], messages := [],
    participant_settings := [⟨0, a⟩, ⟨0, b⟩], nextConvId := 1, nextMsgId := 0 }

/-! ## Concrete stores used by the counterexamples and witnesses -/

/-- An active two-party conversation between users 1 and 2. -/
def exConvA : Conversation :=
  { id := 1, participants := [1, 2], related_product := none, title := none,
    is_active := true, created_at := 0, last_message_at := none }

/-- The store holding just `exConvA` and its two settings rows. -/
def exDBA : DB :=
  { conversations := [exConvA], messages := [],
    participant_settings := [⟨1, 1⟩, ⟨1, 2⟩], nextConvId := 2, nextMsgId := 0 }

/-- The message `post_message exDBA 1 1 "text" "hi" 10 11` persists. -/
def exMsg2 : Message :=
  { id := 0, conversation := 1, sender := 1, message_type := "text",
    content := "hi", metadata := none, is_read := false, is_edited := false,
    is_deleted := false, created_at := 10, read_at := none }

/-- An archived (`is_active = false`) conversation between users 1 and 2. -/
def exConvInact : Conversation :=
  { id := 1, participants := [1, 2], related_product := none, title := none,
    is_active := false, created_at := 0, last_message_at := none }

def exDBInact : DB :=
  { conversations := [exConvInact], messages := [],
    participant_settings := [⟨1, 1⟩, ⟨1, 2⟩], nextConvId := 2, nextMsgId := 0 }

/-- A conversation about product 5 whose participant set strictly contains
the pair \x7b1, 2\x7d. -/
def exConv9 : Conversation :=
  { id := 0, participants := [1, 2, 3], related_product := some 5,
    title := none, is_active := true, created_at := 0, last_message_at := none }

def exDB9 : DB :=
  { conversations := [exConv9], messages := [],
    participant_settings := [⟨0, 1⟩, ⟨0, 2⟩, ⟨0, 3⟩], nextConvId := 1,
    nextMsgId := 0 }

/-- A soft-deleted message from user 2 inside `exConvA`. -/
def exMsgDel : Message :=
  { id := 1, conversation := 1, sender := 2, message_type := "text",
    content := "secret", metadata := none, is_read := false,
    is_edited := false, is_deleted := true, created_at := 1, read_at := none }

/-- A live message from user 2 inside `exConvA`, newer than `exMsgDel`. -/
def exMsgKeep : Message :=
  { id := 2, conversation := 1, sender := 2, message_type := "text",
    content := "hello", metadata := none, is_read := false,
    is_edited := false, is_deleted := false, created_at := 2, read_at := none }

def exDB5 : DB :=
  { conversations := [exConvA], messages := [exMsgDel, exMsgKeep],
    participant_settings := [⟨1, 1⟩, ⟨1, 2⟩], nextConvId := 2, nextMsgId := 3 }

def exDB6 : DB :=
  { conversations := [exConvA], messages := [exMsgDel],
    participant_settings := [⟨1, 1⟩, ⟨1, 2⟩], nextConvId := 2, nextMsgId := 3 }

/-- An unread message from user 2, to be read by user 1. -/
def exMsg7 : Message :=
  { id := 4, conversation := 1, sender := 2, message_type := "text",
    content := "ping", metadata := none, is_read := false, is_edited := false,
    is_deleted := false, created_at := 3, read_at := none }

/-- `exMsg7` after `mark_as_read` at clock value 5. -/
def exMsg7r : Message :=
  { exMsg7 with is_read := true, read_at := some 5 }

/-- A message authored by user 1 inside `exConvA`. -/
def exMsg8 : Message :=
  { id := 3, conversation := 1, sender := 1, message_type := "text",
    content := "mine", metadata := none, is_read := false, is_edited := false,
    is_deleted := false, created_at := 4, read_at := none }

def exDB10 : DB :=
  { conversations := [exConvA], messages := [exMsg7, exMsg8],
    participant_settings := [⟨1, 1⟩, ⟨1, 2⟩], nextConvId := 2, nextMsgId := 5 }

end Chat

deriving instance DecidableEq for Except

namespace Chat

/-! ## Helper lemmas -/

theorem find_existing_spec {db : DB} {a b : Nat} {p : Option Nat}
    {c : Conversation} (h : find_existing db a b p = some c) :
    c ∈ db.conversations ∧ c.participants.contains a = true ∧
      c.related_product = p ∧ c.participants.contains b = true := by
  unfold find_existing at h
  have hc := List.mem_of_mem_head? (Option.mem_def.mpr h)
  obtain ⟨hmem, hpred⟩ := List.mem_filter.mp hc
  simp only [Bool.and_eq_true, beq_iff_eq] at hpred
  exact ⟨hmem, hpred.1.1, hpred.1.2, hpred.2⟩

theorem getConvForUser_spec {db : DB} {convId userId : Nat}
    {conv : Conversation} (h : getConvForUser db convId userId = some conv) :
    conv ∈ db.conversations ∧ conv.participants.contains userId = true ∧
      conv.id = convId := by
  unfold getConvForUser at h
  have hpred := List.find?_some h
  obtain ⟨hmem, hpart⟩ := List.mem_filter.mp (List.mem_of_find?_eq_some h)
  simp only [beq_iff_eq] at hpred
  exact ⟨hmem, hpart, hpred⟩

theorem addParticipant_pair (a b : Nat) (h : a ≠ b) :
    addParticipant (addParticipant [] a) b = [a, b] := by
  simp [addParticipant, Ne.symm h]

theorem addParticipant_self (u : Nat) :
    addParticipant (addParticipant [] u) u = [u] := by
  simp [addParticipant]

/-! ## C3 -/

/-- C3, counterexample.  The claim states that
`getOrCreateConversation(U, U, P)` fails with `InvalidParticipants` and
creates no rows.  On an empty store, `get_or_create_conversation 7 7 none`
instead persists a conversation and one settings row and then fails with an
`IntegrityError` (the `unique_together` constraint on the second
`ConversationParticipant.objects.create` of the same pair) — the source has
no `user1 == user2` check at all. -/
theorem c3_counterexample :
    (get_or_create_conversation emptyDB 7 7 none 0).1 ≠
        Except.error ChatError.invalidParticipants ∧
      (get_or_create_conversation emptyDB 7 7 none 0).1 =
        Except.error (ChatError.integrityError "conversation_participants") ∧
      (get_or_create_conversation emptyDB 7 7 none 0).2.conversations.length
        = 1 ∧
      ((get_or_create_conversation emptyDB 7 7 none
        0).2).participant_settings.length = 1 := by
  decide

/-- C3 (amended): the source performs no `userA == userB` validation.  When
no existing conversation matches and the fresh conversation id has no
settings row yet, `get_or_create_conversation(U, U, P)` persists one new
Conversation (participant set \x7bU\x7d) plus one settings row and then
fails with an `IntegrityError` — not `InvalidParticipants` — on the second
settings row, leaving the created rows committed. -/
theorem c3_self_call_integrity_error (db : DB) (u : Nat) (p : Option Nat)
    (t : Nat) (hfind : find_existing db u u p = none)
    (hfresh : db.participant_settings.contains ⟨db.nextConvId, u⟩ = false) :
    (get_or_create_conversation db u u p t).1 =
        Except.error (ChatError.integrityError "conversation_participants") ∧
      (get_or_create_conversation db u u p t).2.conversations.length =
        db.conversations.length + 1 ∧
      (get_or_create_conversation db u u p t).2.participant_settings =
        db.participant_settings ++ [⟨db.nextConvId, u⟩] := by
  have hnotmem : (⟨db.nextConvId, u⟩ : ParticipantRow) ∉
      db.participant_settings := by
    simpa using hfresh
  unfold get_or_create_conversation
  rw [hfind]
  unfold createConversationUnit
  rw [addParticipant_self]
  unfold createSettingsRow
  simp [hnotmem]

/-- C3, witness for `c3_self_call_integrity_error` at user 7 on the empty
store. -/
theorem c3_self_call_integrity_error_witness :
    (get_or_create_conversation emptyDB 7 7 none 0).1 =
        Except.error (ChatError.integrityError "conversation_participants") ∧
      (get_or_create_conversation emptyDB 7 7 none 0).2.conversations.length =
        emptyDB.conversations.length + 1 ∧
      (get_or_create_conversation emptyDB 7 7 none 0).2.participant_settings =
        emptyDB.participant_settings ++ [⟨emptyDB.nextConvId, 7⟩] :=
  c3_self_call_integrity_error emptyDB 7 none 0 (by decide) (by decide)

/-! ## C1 -/

/-- C1, counterexample.  The claim states that the existence check and the
creation execute as one atomic unit, so concurrent duplicate calls can never
commit two conversations for the same pair+product key.  In the source the
existence check is outside any transaction (the serializer wraps only the
creation block in `transaction.atomic()`, and `get_or_create_conversation`
uses none), so the interleaving check1, check2, create1, create2 of two
calls `getOrCreateConversation(1, 2, none)` on the empty store commits two
conversations and four settings rows for the one key. -/
theorem c1_counterexample :
    countMatching
        (runSchedule 1 2 none 0 [true, false, true, false] emptyDB
          ⟨0, false⟩ ⟨0, false⟩) 1 2 none = 2 ∧
      (runSchedule 1 2 none 0 [true, false, true, false] emptyDB
          ⟨0, false⟩ ⟨0, false⟩).participant_settings.length = 4 := by
  decide

/-- C1 (amended): only when the two calls are serialized (no interleaving)
does the pair+product key stay unique: for distinct users, a first
`get_or_create_conversation` on the empty store commits exactly one matching
conversation and exactly two settings rows, and a second, sequential
duplicate call returns that conversation with `created = false` and leaves
the store unchanged.  Interleaved calls can commit duplicates (see the
counterexample), since the existence check and the creation are not one
atomic unit. -/
theorem c1_sequential_calls_unique (a b : Nat) (p : Option Nat) (t t' : Nat)
    (h : a ≠ b) :
    get_or_create_conversation emptyDB a b p t =
        (Except.ok (seqConv a b p t, true), seqDB a b p t) ∧
      countMatching (seqDB a b p t) a b p = 1 ∧
      (seqDB a b p t).participant_settings.length = 2 ∧
      get_or_create_conversation (seqDB a b p t) a b p t' =
        (Except.ok (seqConv a b p t, false), seqDB a b p t) := by
  have hb : ¬(b = a) := Ne.symm h
  refine ⟨?_, ?_, ?_, ?_⟩
  · simp [get_or_create_conversation, find_existing, emptyDB,
      createConversationUnit, createSettingsRow, addParticipant_pair a b h,
      seqConv, seqDB, hb]
  · simp [countMatching, seqDB, seqConv]
  · rfl
  · simp [get_or_create_conversation, find_existing, seqDB, seqConv]

/-- C1, witness for `c1_sequential_calls_unique` at users 1 and 2. -/
theorem c1_sequential_calls_unique_witness :
    get_or_create_conversation emptyDB 1 2 none 0 =
        (Except.ok (seqConv 1 2 none 0, true), seqDB 1 2 none 0) ∧
      countMatching (seqDB 1 2 none 0) 1 2 none = 1 ∧
      (seqDB 1 2 none 0).participant_settings.length = 2 ∧
      get_or_create_conversation (seqDB 1 2 none 0) 1 2 none 3 =
        (Except.ok (seqConv 1 2 none 0, false), seqDB 1 2 none 0) :=
  c1_sequential_calls_unique 1 2 none 0 3 (by decide)

/-! ## C9 -/

/-- C9, counterexample.  The claim states a conversation is reused only when
its participant set equals exactly \x7buserA, userB\x7d, never for a strict
superset.  `exConv9` has participants \x7b1, 2, 3\x7d and product 5, yet
`get_or_create_conversation 1 2 (some 5)` returns it unchanged with
`created = false`. -/
theorem c9_counterexample :
    (get_or_create_conversation exDB9 1 2 (some 5) 9).1 =
        Except.ok (exConv9, false) ∧
      (get_or_create_conversation exDB9 1 2 (some 5) 9).2 = exDB9 ∧
      exConv9.participants = [1, 2, 3] := by
  decide

/-- C9 (amended): the dedup lookup tests containment, not exact equality:
whenever the filter (participant set contains userA and userB, and
related-product equals the given value) returns a conversation, that
conversation is returned unchanged with `created = false` and the store is
untouched — even when its participant set strictly contains the pair. -/
theorem c9_reuse_by_containment (db : DB) (a b : Nat) (p : Option Nat)
    (t : Nat) (c : Conversation) (h : find_existing db a b p = some c) :
    get_or_create_conversation db a b p t = (Except.ok (c, false), db) ∧
      c.participants.contains a = true ∧ c.participants.contains b = true ∧
      c.related_product = p := by
  obtain ⟨-, ha, hp, hb⟩ := find_existing_spec h
  refine ⟨?_, ha, hb, hp⟩
  unfold get_or_create_conversation
  rw [h]

/-- C9, witness for `c9_reuse_by_containment` at the store `exDB9`, whose
only conversation has participants \x7b1, 2, 3\x7d. -/
theorem c9_reuse_by_containment_witness :
    get_or_create_conversation exDB9 1 2 (some 5) 9 =
        (Except.ok (exConv9, false), exDB9) ∧
      exConv9.participants.contains 1 = true ∧
      exConv9.participants.contains 2 = true ∧
      exConv9.related_product = some 5 :=
  c9_reuse_by_containment exDB9 1 2 (some 5) 9 exConv9 (by decide)

/-! ## C2 -/

/-- C2, counterexample.  The claim states `postMessage` leaves
`conversation.last_message_at` equal to the new message's `created_at`.  The
source instead has `Message.save` call
`Conversation.update_last_message_time`, which stamps a fresh
`timezone.now()` read in a second, separate save.  In the run below the
insert reads clock value 10 and the update reads 11: the persisted message
has `created_at = 10` while the conversation ends with
`last_message_at = some 11`. -/
theorem c2_counterexample :
    (post_message exDBA 1 1 "text" "hi" 10 11).1 = Except.ok exMsg2 ∧
      exMsg2.created_at = 10 ∧
      (post_message exDBA 1 1 "text" "hi" 10 11).2.conversations.map
        (fun c => c.last_message_at) = [some 11] ∧
      (some 11 : Option Nat) ≠ some exMsg2.created_at := by
  decide

/-- C2 (amended): on success `postMessage` appends the message (whose
`created_at` is the clock value read at insert time) and then stamps the
conversation's `last_message_at` with the clock value read later inside
`update_last_message_time` — a separate save of that single field, not the
message's `created_at`; the two values coincide only if the clock does not
advance between the two reads. -/
theorem c2_last_message_at_is_update_time (db : DB) (convId senderId : Nat)
    (mtype content : String) (t1 t2 : Nat) (m : Message) (db' : DB)
    (h : post_message db convId senderId mtype content t1 t2 =
      (Except.ok m, db')) :
    m.created_at = t1 ∧ db'.messages = db.messages ++ [m] ∧
      ∀ c ∈ db'.conversations, c.id = m.conversation →
        c.last_message_at = some t2 := by
  unfold post_message at h
  cases hg : getConvForUser db convId senderId with
  | none => rw [hg] at h; simp at h
  | some conv =>
    rw [hg] at h
    dsimp only at h
    by_cases h1 : conv.participants.contains senderId = false
    · rw [if_pos h1] at h; simp at h
    · rw [if_neg h1] at h
      by_cases h2 : pyStrip content = ""
      · rw [if_pos h2] at h; simp at h
      · rw [if_neg h2] at h
        by_cases h3 : conv.is_active = false
        · rw [if_pos h3] at h; simp at h
        · rw [if_neg h3] at h
          simp only [Prod.mk.injEq, Except.ok.injEq] at h
          obtain ⟨hm, hdb⟩ := h
          subst hm
          subst hdb
          refine ⟨rfl, rfl, ?_⟩
          intro c hc hid
          simp only [messageSave, setLastMessageAt, List.mem_map] at hc
          obtain ⟨c0, _, rfl⟩ := hc
          by_cases hcid : (c0.id == conv.id) = true
          · simp [hcid]
          · rw [if_neg hcid] at hid ⊢
            exact absurd hid (by simpa using hcid)

/-- C2, witness for `c2_last_message_at_is_update_time` at the store
`exDBA`, insert clock 10, update clock 11. -/
theorem c2_last_message_at_is_update_time_witness :
    exMsg2.created_at = 10 ∧
      (post_message exDBA 1 1 "text" "hi" 10 11).2.messages =
        exDBA.messages ++ [exMsg2] ∧
      ∀ c ∈ (post_message exDBA 1 1 "text" "hi" 10 11).2.conversations,
        c.id = exMsg2.conversation → c.last_message_at = some 11 :=
  c2_last_message_at_is_update_time exDBA 1 1 "text" "hi" 10 11 exMsg2 _
    (by rfl)

/-! ## C4 -/

/-- C4, counterexample.  The claim states the structured message builders
cannot bypass `postMessage`'s active-conversation check: on a conversation
with `is_active = false` they must fail and persist nothing.  On the store
`exDBInact`, whose only conversation is inactive, `send_price_offer`
succeeds and persists a `price_offer` message (compare `post_message`, which
refuses the same conversation). -/
theorem c4_counterexample :
    exConvInact.is_active = false ∧
      (send_price_offer exDBInact 1 1 100 none 5 6).1 =
        Except.ok (offerMessage exDBInact exConvInact 1 100 none 5) ∧
      (send_price_offer exDBInact 1 1 100 none 5 6).2.messages =
        [offerMessage exDBInact exConvInact 1 100 none 5] ∧
      (post_message exDBInact 1 1 "text" "hi" 5 6).1 =
        Except.error
          (ChatError.validationError "This conversation is no longer active") := by
  refine ⟨by decide, by rfl, by decide, by rfl⟩

/-- C4 (amended): the builders do enforce the participant check (a
non-participant gets a 404/403 and nothing is persisted), but they bypass
the serializer's active-conversation check: for any participant, a positive
amount and a non-empty location, `send_price_offer` and
`send_meetup_request` succeed and persist the structured message regardless
of the conversation's `is_active` flag. -/
theorem c4_builders_skip_active_check (db : DB) (convId userId : Nat)
    (conv : Conversation) (amount : Int) (note : Option String)
    (location : String) (stime t1 t2 : Nat)
    (hconv : getConvForUser db convId userId = some conv)
    (hamt : 0 < amount) (hloc : location ≠ "") :
    (send_price_offer db convId userId amount note t1 t2).1 =
        Except.ok (offerMessage db conv userId amount note t1) ∧
      (send_price_offer db convId userId amount note t1 t2).2.messages =
        db.messages ++ [offerMessage db conv userId amount note t1] ∧
      (send_meetup_request db convId userId location stime note t1 t2).1 =
        Except.ok (meetupMessage db conv userId location stime note t1) ∧
      ((send_meetup_request db convId userId location stime note t1
          t2).2).messages =
        db.messages ++ [meetupMessage db conv userId location stime note t1] := by
  obtain ⟨-, hpart, -⟩ := getConvForUser_spec hconv
  have hpc : ¬(conv.participants.contains userId = false) := by
    rw [hpart]; simp
  have hle : ¬(amount ≤ 0) := not_le.mpr hamt
  refine ⟨?_, ?_, ?_, ?_⟩
  · unfold send_price_offer
    rw [hconv]; dsimp only; rw [if_neg hpc, if_neg hle]
  · unfold send_price_offer
    rw [hconv]; dsimp only; rw [if_neg hpc, if_neg hle]; rfl
  · unfold send_meetup_request
    rw [hconv]; dsimp only; rw [if_neg hpc, if_neg hloc]
  · unfold send_meetup_request
    rw [hconv]; dsimp only; rw [if_neg hpc, if_neg hloc]; rfl

/-- C4, witness for `c4_builders_skip_active_check` on the inactive
conversation of `exDBInact`. -/
theorem c4_builders_skip_active_check_witness :
    (send_price_offer exDBInact 1 1 100 none 5 6).1 =
        Except.ok (offerMessage exDBInact exConvInact 1 100 none 5) ∧
      (send_price_offer exDBInact 1 1 100 none 5 6).2.messages =
        exDBInact.messages ++ [offerMessage exDBInact exConvInact 1 100 none 5] ∧
      (send_meetup_request exDBInact 1 1 "library" 99 none 5 6).1 =
        Except.ok (meetupMessage exDBInact exConvInact 1 "library" 99 none 5) ∧
      (send_meetup_request exDBInact 1 1 "library" 99 none 5 6).2.messages =
        exDBInact.messages ++
          [meetupMessage exDBInact exConvInact 1 "library" 99 none 5] :=
  c4_builders_skip_active_check exDBInact 1 1 exConvInact 100 none "library"
    99 5 6 (by rfl) (by decide) (by decide)

/-! ## C5 -/

/-- C5, counterexample.  The claim states a soft-deleted message keeps its
row (and ordering position) in the listed sequence with only its content
hidden.  In `exDB5` the conversation holds the soft-deleted `exMsgDel`
(id 1) and the live `exMsgKeep` (id 2); `get_messages` returns only id 2:
the deleted row is omitted from the listing altogether, not redacted in
place. -/
theorem c5_counterexample :
    exMsgDel ∈ exDB5.messages ∧ exMsgDel.is_deleted = true ∧
      (get_messages exDB5 1).map (fun m => m.id) = [2] ∧
      ¬ exMsgDel ∈ get_messages exDB5 1 := by
  decide

/-- C5 (amended): the detail listing excludes soft-deleted rows entirely:
every message `get_messages` returns is a non-deleted row of the requested
conversation (the row itself persists in the store — deletion only removes
it from reads, it does not keep a redacted placeholder in the sequence). -/
theorem c5_listing_excludes_deleted (db : DB) (convId : Nat) (m : Message)
    (h : m ∈ get_messages db convId) :
    m.is_deleted = false ∧ m.conversation = convId ∧ m ∈ db.messages := by
  simp only [get_messages, List.mem_reverse] at h
  have h2 := List.take_subset 50 _ h
  rw [List.mem_insertionSort] at h2
  obtain ⟨hmem, hpred⟩ := List.mem_filter.mp h2
  simp only [Bool.and_eq_true, beq_iff_eq, Bool.not_eq_true'] at hpred
  exact ⟨hpred.2, hpred.1, hmem⟩

/-- C5, witness for `c5_listing_excludes_deleted` at the live message of
`exDB5`. -/
theorem c5_listing_excludes_deleted_witness :
    exMsgKeep.is_deleted = false ∧ exMsgKeep.conversation = 1 ∧
      exMsgKeep ∈ exDB5.messages :=
  c5_listing_excludes_deleted exDB5 1 exMsgKeep (by decide)

/-! ## C6 -/

/-- C6, counterexample.  The claim states `unreadCountForUser` excludes
soft-deleted messages.  In `exDB6` the only message is soft-deleted, unread
and authored by the other user, yet `get_unread_count_for_user` returns 1 —
the query `filter(is_read=False).exclude(sender=user)` has no `is_deleted`
condition. -/
theorem c6_counterexample :
    (∀ m ∈ exDB6.messages, m.is_deleted = true) ∧
      get_unread_count_for_user exDB6 1 1 = 1 := by
  decide

/-- C6 (amended): the unread count is the number of the conversation's
messages with `is_read = false` and a different sender, soft-deleted rows
included: marking every message of the store soft-deleted leaves the count
unchanged, because the counting predicate never reads `is_deleted`. -/
theorem c6_unread_count_ignores_deleted (msgs : List Message)
    (convId userId : Nat) :
    unreadCount (msgs.map (fun m => { m with is_deleted := true }))
        convId userId = unreadCount msgs convId userId := by
  induction msgs with
  | nil => rfl
  | cons x xs ih =>
    simp only [unreadCount, List.map_cons, List.filter_cons] at ih ⊢
    have hx : unreadPred convId userId { x with is_deleted := true } =
        unreadPred convId userId x := rfl
    rw [hx]
    cases hpx : unreadPred convId userId x <;> simp [ih]

/-! ## C7 helpers -/

theorem mark_as_read_fields (m : Message) (t : Nat) :
    (mark_as_read m t).is_deleted = m.is_deleted ∧
      (mark_as_read m t).sender = m.sender := by
  unfold mark_as_read
  split <;> exact ⟨rfl, rfl⟩

theorem mark_as_read_twice (m : Message) (t1 t2 : Nat) :
    mark_as_read (mark_as_read m t1) t2 = mark_as_read m t1 := by
  by_cases hr : m.is_read = true
  · simp [mark_as_read, hr]
  · simp [mark_as_read, hr]

/-! ## C7 -/

/-- C7: `markRead` is idempotent and a no-op for the sender: whenever the
view accepts a call and returns the stored message state `m1`, an immediate
second call with the same reader returns `m1` unchanged (same `read_at`),
and if the reader was the message's sender the first call already changed
nothing (`m1 = m`). -/
theorem c7_mark_read_idempotent_sender_noop (conv : Conversation)
    (m m1 : Message) (readerId t1 t2 : Nat)
    (h : mark_read_view conv m readerId t1 = Except.ok m1) :
    mark_read_view conv m1 readerId t2 = Except.ok m1 ∧
      (m.sender = readerId → m1 = m) := by
  unfold mark_read_view at h ⊢
  by_cases h0 : m.is_deleted = true ∨
      conv.participants.contains readerId = false
  · rw [if_pos h0] at h
    exact absurd h (by simp)
  · have h0b : ¬(conv.participants.contains readerId = false) :=
      fun hb => h0 (Or.inr hb)
    rw [if_neg h0, if_neg h0b] at h
    simp only [Except.ok.injEq] at h
    by_cases hs : m.sender ≠ readerId
    · rw [if_pos hs] at h
      subst h
      have h0' : ¬((mark_as_read m t1).is_deleted = true ∨
          conv.participants.contains readerId = false) := by
        rw [(mark_as_read_fields m t1).1]; exact h0
      have hs' : (mark_as_read m t1).sender ≠ readerId := by
        rw [(mark_as_read_fields m t1).2]; exact hs
      rw [if_neg h0', if_neg h0b, if_pos hs', mark_as_read_twice]
      exact ⟨rfl, fun hsr => absurd hsr hs⟩
    · rw [if_neg hs] at h
      subst h
      rw [if_neg h0, if_neg h0b, if_neg hs]
      exact ⟨rfl, fun _ => rfl⟩

/-- C7, witness for `c7_mark_read_idempotent_sender_noop`: user 1 reads
`exMsg7` (sent by user 2) at clock 5, and again at clock 6. -/
theorem c7_mark_read_idempotent_sender_noop_witness :
    mark_read_view exConvA exMsg7r 1 6 = Except.ok exMsg7r ∧
      (exMsg7.sender = 1 → exMsg7r = exMsg7) :=
  c7_mark_read_idempotent_sender_noop exConvA exMsg7 exMsg7r 1 5 6 (by decide)

/-! ## C8 -/

/-- C8: the permission halves of the claim hold — a non-sender's edit and
delete fail with `Forbidden` leaving the message untouched, and the sender's
edit succeeds setting `is_edited` — but the sender's soft delete crashes:
`MessageViewSet.destroy` invokes `message.soft_delete()`, a method class
`Message` never defines, so at the concrete failing input (user 1 deleting
their own message `exMsg8`) the request raises `AttributeError` instead of
setting `is_deleted = true`.  The `is_deleted` column ("soft delete") and
the queryset filters that consume it show the claim matches the intent; the
code is the slip. -/
theorem c8_destroy_attribute_error :
    destroy exConvA exMsg8 2 =
        Except.error
          (ChatError.forbidden "You can only delete your own messages") ∧
      update_message exConvA exMsg8 2 "x" =
        Except.error
          (ChatError.forbidden "You can only edit your own messages") ∧
      update_message exConvA exMsg8 1 "edited" =
        Except.ok { exMsg8 with content := "edited", is_edited := true } ∧
      messageHasMethod "soft_delete" = false ∧
      destroy exConvA exMsg8 1 =
        Except.error (ChatError.attributeError "soft_delete") := by
  decide

/-! ## C10 helpers -/

theorem unreadPred_after_mark (convId userId tNow : Nat) (x : Message) :
    unreadPred convId userId
      (if unreadPred convId userId x then
        { x with is_read := true, read_at := some tNow } else x) = false := by
  cases hx : unreadPred convId userId x with
  | false => simp [hx]
  | true => simp [hx, unreadPred]

theorem unreadCount_mark_all (msgs : List Message) (convId userId tNow : Nat) :
    unreadCount (mark_as_read_for_user msgs convId userId tNow) convId userId
      = 0 := by
  induction msgs with
  | nil => rfl
  | cons x xs ih =>
    simp only [mark_as_read_for_user, List.map_cons, unreadCount,
      List.filter_cons, unreadPred_after_mark] at ih ⊢
    simpa using ih

/-! ## C10 -/

/-- C10: retrieving a conversation's detail view is not observation-only:
for a requester who is a participant, `retrieve` first marks every message
of the conversation not authored by the requester and not already read as
read (stamping `read_at` with the request clock), and only then serializes
the conversation from the updated store — so the returned payload already
reflects the marking (its unread count is 0). -/
theorem c10_retrieve_marks_read (db : DB) (convId userId tNow : Nat)
    (conv : Conversation)
    (h : getConvForUser db convId userId = some conv) :
    (retrieve db convId userId tNow).1 =
        Except.ok
          (serializeDetail (retrieve db convId userId tNow).2 conv userId) ∧
      (∀ m ∈ (retrieve db convId userId tNow).2.messages,
        m.conversation = conv.id → m.sender ≠ userId → m.is_read = true) ∧
      (serializeDetail (retrieve db convId userId tNow).2 conv
        userId).unread_count = 0 := by
  unfold retrieve
  rw [h]
  dsimp only
  refine ⟨rfl, ?_, ?_⟩
  · intro m hm hconv hsend
    simp only [mark_as_read_for_user, List.mem_map] at hm
    obtain ⟨m0, hm0, rfl⟩ := hm
    cases hp : unreadPred conv.id userId m0 with
    | true => simp [hp]
    | false =>
      rw [if_neg (by simp [hp])] at hconv hsend ⊢
      simp only [unreadPred, hconv, beq_self_eq_true, Bool.true_and,
        bne_iff_ne, Bool.and_eq_false_iff] at hp
      rcases hp with hp | hp
      · simpa using hp
      · exact absurd hsend (by simpa using hp)
  · simp only [serializeDetail, get_unread_count_for_user]
    exact unreadCount_mark_all db.messages conv.id userId tNow

/-- C10, witness for `c10_retrieve_marks_read`: user 1 retrieves
conversation 1 of `exDB10`. -/
theorem c10_retrieve_marks_read_witness :
    (retrieve exDB10 1 1 7).1 =
        Except.ok (serializeDetail (retrieve exDB10 1 1 7).2 exConvA 1) ∧
      (∀ m ∈ (retrieve exDB10 1 1 7).2.messages,
        m.conversation = exConvA.id → m.sender ≠ 1 → m.is_read = true) ∧
      (serializeDetail (retrieve exDB10 1 1 7).2 exConvA 1).unread_count
        = 0 :=
  c10_retrieve_marks_read exDB10 1 1 7 exConvA (by rfl)

end Chat
